import Mathlib

/-!
Shallow embedding of `src/main.js` of the reloader WebExtension.

The background script is single-threaded and event-driven; each listener
body is embedded as a pure function from the module-level mutable state
(and the data the browser hands the listener) to a new state together with
the list of browser-UI calls it performs.  `window.setTimeout` scheduling
is made explicit: the runtime's set of pending timeouts lives in the state,
`window.clearTimeout` filters it, and a timeout firing is a separate
operation that is only meaningful for a pending timeout.  `Date.now()` is
an input (`now`) to every operation that reads the clock.
-/

namespace Reloader

/-- Load state of a browser tab: the source only ever tests
`tab.status === "loading"`, so the model keeps a two-valued state
(`idle` stands for any non-loading status such as `"complete"`). -/
inductive LoadState where
  | loading
  | idle
  deriving DecidableEq

/-- Browser tab as far as the source reads it: an id and a load status. -/
structure Tab where
  id : Nat
  status : LoadState
  deriving DecidableEq

/-- Pending `setTimeout` scheduling created by `update_page_action_icon`
(source lines 73-78).  The callback closes over the `tab` argument, `delay`
is the constant passed to `window.setTimeout` (417 in the source) and `id`
models the timeout id the call returns. -/
structure Timer where
  id : Nat
  tab : Tab
  delay : Nat
  deriving DecidableEq

/-- Observable calls into the browser UI API.  The source always applies
the same payload to both surfaces (`browser.pageAction` and
`browser.browserAction`), so one effect stands for the pair of calls.  A
`setTitle` carrying `none` models passing JS `undefined` as the title. -/
inductive Effect where
  | showAction (tabId : Nat)
  | setTitle (tabId : Nat) (title : Option String)
  | setIcon (tabId : Nat) (path : String)
  deriving DecidableEq

/-- Lookup in an association-list model of a JS `Map` (first binding wins). -/
def lookupA {α : Type} : List (Nat × α) → Nat → Option α
  | [], _ => none
  | (k, v) :: rest, i => if k = i then some v else lookupA rest i

/-- Model of `Map.prototype.set`: the new binding shadows any older one. -/
def setA {α : Type} (m : List (Nat × α)) (k : Nat) (v : α) : List (Nat × α) :=
  (k, v) :: m

/-- Model of `Map.prototype.delete`: removes every binding for the key. -/
def deleteA {α : Type} : List (Nat × α) → Nat → List (Nat × α)
  | [], _ => []
  | p :: rest, k => if p.1 = k then deleteA rest k else p :: deleteA rest k

/-- Whole mutable state of the background script: the module-level `let`
bindings and `Map`s of `src/main.js`, plus the runtime's set of pending
(scheduled, neither fired nor cancelled) timeouts and a counter supplying
fresh timeout ids. -/
structure AppState where
  is_theme_dark : Bool
  page_action_title_idle : Option String
  page_action_title_busy : String
  animation_timeouts : List (Nat × Nat)
  live_timeouts : List Timer
  next_timeout_id : Nat
  navigation_timestamp : List (Nat × Int)
  deriving DecidableEq

/-- Theme ids using light icons (source lines 9-11). -/
def dark_theme_ids : List String :=
  ["firefox-compact-dark@mozilla.org@personas.mozilla.org"]

/-- Modelled from the spec: localisation (`browser.i18n.getMessage`, the `_`
of source line 3) is an external collaborator out of scope; it is
represented by an injective pairing of the message key and the substitution
string, a value no claim depends on. -/
def i18n_getMessage (key substitution : String) : String :=
  key ++ "/" ++ substitution

/-- Animated-branch icon path of `update_page_action_icon` (source lines
57-70): picks the transition clip by `tab.status` and the theme flag, and
appends the cache-bypass marker built from this invocation's `Date.now()`
reading `now`. -/
def animated_icon_path (status : LoadState) (is_dark : Bool) (now : Nat) : String :=
  let reload_icon_path := if is_dark
    then "data/reload_to_stop_dark.svg"
    else "data/reload_to_stop_light.svg"
  let stop_icon_path := if is_dark
    then "data/stop_to_reload_dark.svg"
    else "data/stop_to_reload_light.svg"
  let timestamp := "?t=" ++ toString now
  (match status with
    | .loading => stop_icon_path
    | .idle => reload_icon_path) ++ timestamp

/-- Still-frame-branch icon path of `update_page_action_icon` (source lines
79-89). -/
def still_icon_path (status : LoadState) (is_dark : Bool) : String :=
  let reload_icon_path := if is_dark
    then "data/reload_dark.svg"
    else "data/reload_light.svg"
  let stop_icon_path := if is_dark
    then "data/stop_dark.svg"
    else "data/stop_light.svg"
  match status with
  | .loading => stop_icon_path
  | .idle => reload_icon_path

/-- Icon path chosen by `update_page_action_icon` as a function of the
branch taken. -/
def update_icon_path (status : LoadState) (is_dark : Bool) (is_animated : Bool) (now : Nat) :
    String :=
  if is_animated then animated_icon_path status is_dark now
  else still_icon_path status is_dark

/-- Effect of `window.clearTimeout tid` on the runtime's pending-timeout
set. -/
def clear_timeout (live : List Timer) (tid : Nat) : List Timer :=
  live.filter (fun t => t.id != tid)

/-- Pending-timeout set after the `clearTimeout` step of
`update_page_action_icon` (source lines 53-55): the timeout id recorded in
`animation_timeouts` for the tab, if any, is cancelled. -/
def cleared_live (s : AppState) (tabId : Nat) : List Timer :=
  match lookupA s.animation_timeouts tabId with
  | some tid => clear_timeout s.live_timeouts tid
  | none => s.live_timeouts

/-- Embedding of `update_page_action_icon` (source lines 50-99).  Clears the
timeout recorded in `animation_timeouts` for the tab, if any; in the
animated branch sets the transition-clip icon and schedules a fresh 417 ms
timeout recorded in `animation_timeouts`; in the still branch just sets the
settled icon.  The returned effects are the `setIcon` calls made. -/
def update_page_action_icon (s : AppState) (tab : Tab) (is_animated : Bool) (now : Nat) :
    AppState × List Effect :=
  let live := cleared_live s tab.id
  if is_animated then
    let path := animated_icon_path tab.status s.is_theme_dark now
    let timeout_id := s.next_timeout_id
    ({ s with
        animation_timeouts := setA s.animation_timeouts tab.id timeout_id
        live_timeouts := live ++ [{ id := timeout_id, tab := tab, delay := 417 }]
        next_timeout_id := s.next_timeout_id + 1 },
     [Effect.setIcon tab.id path])
  else
    ({ s with live_timeouts := live },
     [Effect.setIcon tab.id (still_icon_path tab.status s.is_theme_dark)])

/-- Firing of a pending settle timeout `t` (the callback of source lines
73-76): the runtime removes the fired timeout from the pending set, then
the callback runs `update_page_action_icon(tab, false)` on the captured tab
and deletes the tab's `animation_timeouts` entry.  Meaningful only when `t`
is pending, i.e. `t ∈ s.live_timeouts`. -/
def fire_timer (s : AppState) (t : Timer) (now : Nat) : AppState × List Effect :=
  let s0 := { s with live_timeouts := clear_timeout s.live_timeouts t.id }
  let r := update_page_action_icon s0 t.tab false now
  ({ r.1 with animation_timeouts := deleteA r.1.animation_timeouts t.tab.id }, r.2)

/-- Embedding of `update_page_action` (source lines 118-130): shows the
page action and sets the title on both surfaces; the title is the busy
title when the tab is loading and the (possibly still undefined) idle title
otherwise. -/
def update_page_action (s : AppState) (tab : Tab) : List Effect :=
  [Effect.showAction tab.id,
   Effect.setTitle tab.id
     (match tab.status with
       | .loading => some s.page_action_title_busy
       | .idle => s.page_action_title_idle)]

/-- Embedding of `update_all_page_action_icons` (source lines 104-110): the
`browser.tabs.query` result is passed in as `tabs`, and every tab gets an
icon update with `is_animated` left at its default `true`. -/
def update_all_page_action_icons (s : AppState) (now : Nat) :
    List Tab → AppState × List Effect
  | [] => (s, [])
  | tab :: rest =>
    let r := update_page_action_icon s tab true now
    let rr := update_all_page_action_icons r.1 now rest
    (rr.1, r.2 ++ rr.2)

/-- Per-tab body of the startup enumeration (source lines 159-164). -/
def startup_show_tab (s : AppState) (tab : Tab) (now : Nat) : AppState × List Effect :=
  let e1 := update_page_action s tab
  let r := update_page_action_icon s tab true now
  (r.1, e1 ++ r.2)

/-- Embedding of the `browser.tabs.onCreated` listener (source lines
167-170). -/
def on_created (s : AppState) (tab : Tab) (now : Nat) : AppState × List Effect :=
  let e1 := update_page_action s tab
  let r := update_page_action_icon s tab true now
  (r.1, e1 ++ r.2)

/-- Embedding of the `browser.tabs.onUpdated` listener (source lines
172-174): it calls `update_page_action` only. -/
def on_updated (s : AppState) (tab : Tab) : AppState × List Effect :=
  (s, update_page_action s tab)

/-- Entry of the `browser.management` extension list as far as the source
reads it. -/
structure ExtensionInfo where
  type : String
  enabled : Bool
  id : String
  deriving DecidableEq

/-- Embedding of the `browser.management.onEnabled` listener (source lines
23-28): on a theme event, overwrite the dark flag and refresh every open
tab's icon; `tabs` is the `browser.tabs.query` result the refresh sees. -/
def on_enabled (s : AppState) (info : ExtensionInfo) (tabs : List Tab) (now : Nat) :
    AppState × List Effect :=
  if info.type = "theme" then
    update_all_page_action_icons
      { s with is_theme_dark := dark_theme_ids.contains info.id } now tabs
  else (s, [])

/-- Embedding of the `browser.management.getAll` continuation (source lines
14-20).  `none` models the handler throwing: when the filtered list is
empty, `extensions.filter(...)[0]` is `undefined` and reading `.id` from it
raises a `TypeError`, so neither the flag write nor the refresh happens. -/
def management_getAll_handler (s : AppState) (tabs : List Tab) (now : Nat)
    (extensions : List ExtensionInfo) : Option (AppState × List Effect) :=
  match (extensions.filter (fun ext => ext.type == "theme" && ext.enabled)).head? with
  | none => none
  | some current_theme =>
    some (update_all_page_action_icons
      { s with is_theme_dark := dark_theme_ids.contains current_theme.id } now tabs)

/-- Embedding of the `browser.runtime.getPlatformInfo` continuation (source
lines 35-38): fills in the idle title once the OS is known. -/
def platformInfo_handler (s : AppState) (os : String) : AppState :=
  let shortcut := (if os == "mac" then "⌘" else "Ctrl") ++ "+R"
  let title := i18n_getMessage "page_action_idle_title" shortcut
  { s with page_action_title_idle := some title }

/-- Navigation event payload as far as `on_navigation` reads it. -/
structure NavDetails where
  tabId : Nat
  frameId : Nat
  timeStamp : Int
  deriving DecidableEq

/-- Debounce decision of `on_navigation` (source lines 189-203): animate
unless a previous navigation of the tab was recorded less than 417 ms
before the event's timestamp. -/
def nav_decision (s : AppState) (tabId : Nat) (ts : Int) : Bool :=
  match lookupA s.navigation_timestamp tabId with
  | none => true
  | some prev => if ts - prev < 417 then false else true

/-- Embedding of `on_navigation` (source lines 183-211).  A truthy
(non-zero) `frameId` returns early; otherwise `tab` is the
`browser.tabs.get` result, the title is refreshed, the icon is updated
(animated only if the debounce decision allows) and the event timestamp is
recorded unconditionally afterwards. -/
def on_navigation (s : AppState) (details : NavDetails) (tab : Tab) (now : Nat) :
    AppState × List Effect :=
  if details.frameId ≠ 0 then (s, [])
  else
    let should_animate := nav_decision s details.tabId details.timeStamp
    let e1 := update_page_action s tab
    let r := update_page_action_icon s tab should_animate now
    let stamped := setA r.1.navigation_timestamp details.tabId details.timeStamp
    ({ r.1 with navigation_timestamp := stamped }, e1 ++ r.2)

/-- Module-level initial state: the values the top of `src/main.js` gives
the mutable bindings (dark flag `false`, idle title not yet resolved, busy
title computed eagerly on line 32, empty maps, no pending timeout). -/
def initial_state : AppState where
  is_theme_dark := false
  page_action_title_idle := none
  page_action_title_busy := i18n_getMessage "page_action_busy_title" "Esc"
  animation_timeouts := []
  live_timeouts := []
  next_timeout_id := 0
  navigation_timestamp := []

/-- Recogniser for icon-setting effects. -/
def is_icon_effect : Effect → Bool
  | .setIcon _ _ => true
  | _ => false

/-- Modelled from the spec: the debounce decisions section 8 of the
specification prescribes for a sequence of top-level navigation timestamps
on one tab, threading the previously recorded timestamp. -/
def spec_decisions : Option Int → List Int → List Bool
  | _, [] => []
  | none, ts :: rest => true :: spec_decisions (some ts) rest
  | some prev, ts :: rest => decide (417 ≤ ts - prev) :: spec_decisions (some ts) rest

/-- Harness folding `on_navigation` over a list of top-level navigation
timestamps for one tab, collecting the debounce decision of every event. -/
def run_navigation (tab : Tab) (now : Nat) : AppState → List Int → AppState × List Bool
  | s, [] => (s, [])
  | s, ts :: rest =>
    let d := nav_decision s tab.id ts
    let r := on_navigation s ⟨tab.id, 0, ts⟩ tab now
    let rr := run_navigation tab now r.1 rest
    (rr.1, d :: rr.2)

/-- Modelled from the spec, with the clip-asset names amended to the ones
the source spells out: pure asset resolution by load state, theme and
phase. -/
def spec_resolve (status : LoadState) (is_dark : Bool) (animated : Bool) : String :=
  let base := if animated then
      match status with
      | .loading => "stop_to_reload"
      | .idle => "reload_to_stop"
    else
      match status with
      | .loading => "stop"
      | .idle => "reload"
  "data/" ++ base ++ (if is_dark then "_dark" else "_light") ++ ".svg"

/-- Timer bookkeeping invariant: every pending settle timeout is exactly
the one the `animation_timeouts` map records for its tab, carries the fixed
417 ms delay and an id below the fresh-id counter, and pending timeout ids
are pairwise distinct. -/
def TimerInv (s : AppState) : Prop :=
  (∀ t ∈ s.live_timeouts,
      lookupA s.animation_timeouts t.tab.id = some t.id ∧
      t.id < s.next_timeout_id ∧ t.delay = 417) ∧
  (s.live_timeouts.map Timer.id).Nodup

instance (s : AppState) : Decidable (TimerInv s) := by
  unfold TimerInv; exact inferInstance

/-! Lemmas about the association-list model of JS `Map`s. -/

theorem lookupA_setA_self {α : Type} (m : List (Nat × α)) (k : Nat) (v : α) :
    lookupA (setA m k v) k = some v := by
  simp [lookupA, setA]

theorem lookupA_setA_ne {α : Type} (m : List (Nat × α)) (k k' : Nat) (v : α) (h : k' ≠ k) :
    lookupA (setA m k v) k' = lookupA m k' := by
  simp [lookupA, setA, Ne.symm h]

theorem lookupA_deleteA_self {α : Type} (m : List (Nat × α)) (k : Nat) :
    lookupA (deleteA m k) k = none := by
  induction m with
  | nil => rfl
  | cons p rest ih =>
    by_cases h : p.1 = k
    · simpa [deleteA, h] using ih
    · simpa [deleteA, lookupA, h] using ih

theorem lookupA_deleteA_ne {α : Type} (m : List (Nat × α)) (k k' : Nat) (h : k' ≠ k) :
    lookupA (deleteA m k) k' = lookupA m k' := by
  induction m with
  | nil => rfl
  | cons p rest ih =>
    by_cases hp : p.1 = k
    · have hkk : ¬ k = k' := fun hc => h hc.symm
      simpa [deleteA, lookupA, hp, hkk] using ih
    · by_cases hk : p.1 = k'
      · simp [deleteA, lookupA, hp, hk, h]
      · simpa [deleteA, lookupA, hp, hk] using ih

/-! Lemmas about timeout cancellation and the cleared pending set. -/

theorem mem_clear_timeout {live : List Timer} {tid : Nat} {t : Timer} :
    t ∈ clear_timeout live tid ↔ t ∈ live ∧ t.id ≠ tid := by
  simp [clear_timeout]

theorem cleared_live_subset {s : AppState} {tabId : Nat} {t : Timer}
    (ht : t ∈ cleared_live s tabId) : t ∈ s.live_timeouts := by
  unfold cleared_live at ht
  cases hl : lookupA s.animation_timeouts tabId with
  | none => rw [hl] at ht; exact ht
  | some tid => rw [hl] at ht; exact (mem_clear_timeout.mp ht).1

theorem cleared_live_tab_ne (s : AppState) (h : TimerInv s) (tabId : Nat) :
    ∀ t ∈ cleared_live s tabId, t.tab.id ≠ tabId := by
  intro t ht htab
  unfold cleared_live at ht
  cases hl : lookupA s.animation_timeouts tabId with
  | none =>
    rw [hl] at ht
    have := (h.1 t ht).1
    rw [htab, hl] at this
    exact Option.noConfusion this
  | some tid =>
    rw [hl] at ht
    obtain ⟨hmem, hne⟩ := mem_clear_timeout.mp ht
    have := (h.1 t hmem).1
    rw [htab, hl] at this
    exact hne (Option.some.injEq _ _ ▸ this.symm ▸ rfl)

theorem cleared_live_map_sublist (s : AppState) (tabId : Nat) :
    ((cleared_live s tabId).map Timer.id).Sublist (s.live_timeouts.map Timer.id) := by
  unfold cleared_live
  cases lookupA s.animation_timeouts tabId with
  | none => exact List.Sublist.refl _
  | some tid => exact (List.filter_sublist _).map _

theorem cleared_live_no_id (s : AppState) (h : TimerInv s) (t : Timer)
    (ht : t ∈ s.live_timeouts) (tabId : Nat) (htab : t.tab.id = tabId) :
    ∀ u ∈ cleared_live s tabId, u.id ≠ t.id := by
  intro u hu
  have hlook : lookupA s.animation_timeouts tabId = some t.id := by
    have := (h.1 t ht).1
    rwa [htab] at this
  unfold cleared_live at hu
  rw [hlook] at hu
  exact (mem_clear_timeout.mp hu).2

/-! State-shape lemmas for the icon update and a timeout firing. -/

theorem update_icon_state_true (s : AppState) (tab : Tab) (now : Nat) :
    (update_page_action_icon s tab true now).1 =
      { s with
          animation_timeouts := setA s.animation_timeouts tab.id s.next_timeout_id
          live_timeouts := cleared_live s tab.id ++ [⟨s.next_timeout_id, tab, 417⟩]
          next_timeout_id := s.next_timeout_id + 1 } := rfl

theorem update_icon_state_false (s : AppState) (tab : Tab) (now : Nat) :
    (update_page_action_icon s tab false now).1 =
      { s with live_timeouts := cleared_live s tab.id } := rfl

theorem update_icon_effects_true (s : AppState) (tab : Tab) (now : Nat) :
    (update_page_action_icon s tab true now).2 =
      [Effect.setIcon tab.id (animated_icon_path tab.status s.is_theme_dark now)] := rfl

theorem update_icon_effects_false (s : AppState) (tab : Tab) (now : Nat) :
    (update_page_action_icon s tab false now).2 =
      [Effect.setIcon tab.id (still_icon_path tab.status s.is_theme_dark)] := rfl

theorem update_icon_dark (s : AppState) (tab : Tab) (b : Bool) (now : Nat) :
    (update_page_action_icon s tab b now).1.is_theme_dark = s.is_theme_dark := by
  cases b
  · rw [update_icon_state_false]
  · rw [update_icon_state_true]

theorem update_icon_nav (s : AppState) (tab : Tab) (b : Bool) (now : Nat) :
    (update_page_action_icon s tab b now).1.navigation_timestamp = s.navigation_timestamp := by
  cases b
  · rw [update_icon_state_false]
  · rw [update_icon_state_true]

theorem fire_timer_state (s : AppState) (t : Timer) (now : Nat) :
    (fire_timer s t now).1 =
      { s with
          animation_timeouts := deleteA s.animation_timeouts t.tab.id
          live_timeouts :=
            cleared_live { s with live_timeouts := clear_timeout s.live_timeouts t.id }
              t.tab.id } := rfl

theorem fire_timer_effects (s : AppState) (t : Timer) (now : Nat) :
    (fire_timer s t now).2 =
      [Effect.setIcon t.tab.id (still_icon_path t.tab.status s.is_theme_dark)] := rfl

/-! Preservation of the timer bookkeeping invariant. -/

theorem TimerInv_update_true (s : AppState) (tab : Tab) (now : Nat) (h : TimerInv s) :
    TimerInv (update_page_action_icon s tab true now).1 := by
  obtain ⟨h1, h2⟩ := h
  rw [update_icon_state_true]
  unfold TimerInv
  constructor
  · intro t ht
    rcases List.mem_append.mp ht with hm | hm
    · obtain ⟨hl, hn, hd⟩ := h1 t (cleared_live_subset hm)
      have hne : t.tab.id ≠ tab.id := cleared_live_tab_ne s ⟨h1, h2⟩ tab.id t hm
      refine ⟨?_, Nat.lt_succ_of_lt hn, hd⟩
      rw [lookupA_setA_ne _ _ _ _ hne]
      exact hl
    · have heq : t = ⟨s.next_timeout_id, tab, 417⟩ := by simpa using hm
      subst heq
      exact ⟨lookupA_setA_self _ _ _, Nat.lt_succ_self _, rfl⟩
  · rw [List.map_append]
    apply List.Nodup.append
    · exact List.Nodup.sublist (cleared_live_map_sublist s tab.id) h2
    · simp
    · intro x hx hx2
      obtain ⟨t, htm, rfl⟩ := List.mem_map.mp hx
      obtain ⟨-, hn, -⟩ := h1 t (cleared_live_subset htm)
      simp at hx2
      omega

theorem TimerInv_update_false (s : AppState) (tab : Tab) (now : Nat) (h : TimerInv s) :
    TimerInv (update_page_action_icon s tab false now).1 := by
  obtain ⟨h1, h2⟩ := h
  rw [update_icon_state_false]
  unfold TimerInv
  constructor
  · intro t ht
    exact h1 t (cleared_live_subset ht)
  · exact List.Nodup.sublist (cleared_live_map_sublist s tab.id) h2

theorem TimerInv_update (s : AppState) (tab : Tab) (b : Bool) (now : Nat) (h : TimerInv s) :
    TimerInv (update_page_action_icon s tab b now).1 := by
  cases b
  · exact TimerInv_update_false s tab now h
  · exact TimerInv_update_true s tab now h

theorem TimerInv_fire (s : AppState) (t : Timer) (now : Nat) (h : TimerInv s)
    (ht : t ∈ s.live_timeouts) : TimerInv (fire_timer s t now).1 := by
  obtain ⟨h1, h2⟩ := h
  rw [fire_timer_state]
  unfold TimerInv
  constructor
  · intro u hu
    have hu0 : u ∈ clear_timeout s.live_timeouts t.id := cleared_live_subset hu
    obtain ⟨humem, huid⟩ := mem_clear_timeout.mp hu0
    obtain ⟨hl, hn, hd⟩ := h1 u humem
    have hne : u.tab.id ≠ t.tab.id := by
      intro hc
      rw [hc, (h1 t ht).1] at hl
      exact huid (Option.some.inj hl).symm
    refine ⟨?_, hn, hd⟩
    rw [lookupA_deleteA_ne _ _ _ hne]
    exact hl
  · refine List.Nodup.sublist ?_ h2
    apply (cleared_live_map_sublist _ t.tab.id).trans
    exact (List.filter_sublist _).map _

theorem TimerInv_update_all : ∀ (tabs : List Tab) (s : AppState) (now : Nat), TimerInv s →
    TimerInv (update_all_page_action_icons s now tabs).1 := by
  intro tabs
  induction tabs with
  | nil => intro s now h; exact h
  | cons tab rest ih =>
    intro s now h
    exact ih _ now (TimerInv_update s tab true now h)

theorem TimerInv_on_navigation (s : AppState) (d : NavDetails) (tab : Tab) (now : Nat)
    (h : TimerInv s) : TimerInv (on_navigation s d tab now).1 := by
  unfold on_navigation
  by_cases hf : d.frameId ≠ 0
  · rw [if_pos hf]; exact h
  · rw [if_neg hf]
    exact TimerInv_update s tab (nav_decision s d.tabId d.timeStamp) now h

theorem TimerInv_on_enabled (s : AppState) (info : ExtensionInfo) (tabs : List Tab) (now : Nat)
    (h : TimerInv s) : TimerInv (on_enabled s info tabs now).1 := by
  unfold on_enabled
  by_cases ht : info.type = "theme"
  · rw [if_pos ht]
    exact TimerInv_update_all tabs _ now h
  · rw [if_neg ht]; exact h

/-! Counting pending timeouts per tab. -/

theorem nodup_const_length_le_one {l : List Nat} {v : Nat} (hn : l.Nodup)
    (hv : ∀ x ∈ l, x = v) : l.length ≤ 1 := by
  match l, hn, hv with
  | [], _, _ => simp
  | [a], _, _ => simp
  | a :: b :: rest, hn, hv =>
    exfalso
    have ha := hv a (by simp)
    have hb := hv b (by simp)
    have hab : a ∉ b :: rest := (List.nodup_cons.mp hn).1
    exact hab (by rw [ha, ← hb]; exact List.mem_cons_self b rest)

theorem TimerInv_count (s : AppState) (h : TimerInv s) (tabId : Nat) :
    (s.live_timeouts.filter fun t => t.tab.id = tabId).length ≤ 1 := by
  obtain ⟨h1, h2⟩ := h
  cases hl : lookupA s.animation_timeouts tabId with
  | none =>
    have hnil : s.live_timeouts.filter (fun t => t.tab.id = tabId) = [] := by
      rw [List.filter_eq_nil_iff]
      intro t ht hdec
      have htt : t.tab.id = tabId := by simpa using hdec
      have hlo := (h1 t ht).1
      rw [htt, hl] at hlo
      exact Option.noConfusion hlo
    rw [hnil]
    simp
  | some tid =>
    have hmap : ∀ x ∈ (s.live_timeouts.filter fun t => t.tab.id = tabId).map Timer.id,
        x = tid := by
      intro x hx
      obtain ⟨t, htf, rfl⟩ := List.mem_map.mp hx
      obtain ⟨htl, htt⟩ := List.mem_filter.mp htf
      have htab : t.tab.id = tabId := by simpa using htt
      have hlo := (h1 t htl).1
      rw [htab, hl] at hlo
      exact (Option.some.inj hlo).symm
    have hnd : ((s.live_timeouts.filter fun t => t.tab.id = tabId).map Timer.id).Nodup :=
      List.Nodup.sublist ((List.filter_sublist _).map _) h2
    have hlen := nodup_const_length_le_one hnd hmap
    rwa [List.length_map] at hlen

theorem one_timer_after_animated (s : AppState) (h : TimerInv s) (tab : Tab) (now : Nat) :
    ((update_page_action_icon s tab true now).1.live_timeouts.filter
      fun t => t.tab.id = tab.id) = [⟨s.next_timeout_id, tab, 417⟩] := by
  have hst : (update_page_action_icon s tab true now).1.live_timeouts
      = cleared_live s tab.id ++ [⟨s.next_timeout_id, tab, 417⟩] := rfl
  have hnil : (cleared_live s tab.id).filter (fun t => t.tab.id = tab.id) = [] := by
    rw [List.filter_eq_nil_iff]
    intro t ht hdec
    exact cleared_live_tab_ne s h tab.id t ht (by simpa using hdec)
  rw [hst, List.filter_append, hnil]
  simp

/-! Debounce decisions along a sequence of navigation events. -/

theorem on_navigation_nav_state (s : AppState) (tabId : Nat) (ts : Int) (tab : Tab) (now : Nat) :
    (on_navigation s ⟨tabId, 0, ts⟩ tab now).1.navigation_timestamp
      = setA (update_page_action_icon s tab (nav_decision s tabId ts) now).1.navigation_timestamp
          tabId ts := rfl

theorem on_navigation_records (s : AppState) (tabId : Nat) (ts : Int) (tab : Tab) (now : Nat) :
    lookupA (on_navigation s ⟨tabId, 0, ts⟩ tab now).1.navigation_timestamp tabId = some ts := by
  rw [on_navigation_nav_state, lookupA_setA_self]

theorem nav_decision_spec (s : AppState) (tabId : Nat) (ts : Int) :
    nav_decision s tabId ts =
      match lookupA s.navigation_timestamp tabId with
      | none => true
      | some prev => decide (417 ≤ ts - prev) := by
  unfold nav_decision
  cases lookupA s.navigation_timestamp tabId with
  | none => rfl
  | some prev =>
    show (if ts - prev < 417 then false else true) = decide (417 ≤ ts - prev)
    by_cases hc : ts - prev < 417
    · rw [if_pos hc]
      symm
      rw [decide_eq_false_iff_not]
      omega
    · rw [if_neg hc]
      symm
      rw [decide_eq_true_eq]
      omega

theorem run_navigation_decisions (tab : Tab) (now : Nat) :
    ∀ (tss : List Int) (s : AppState),
      (run_navigation tab now s tss).2
        = spec_decisions (lookupA s.navigation_timestamp tab.id) tss := by
  intro tss
  induction tss with
  | nil => intro s; cases lookupA s.navigation_timestamp tab.id <;> rfl
  | cons ts rest ih =>
    intro s
    have htail := ih (on_navigation s ⟨tab.id, 0, ts⟩ tab now).1
    rw [on_navigation_records] at htail
    have hrun : (run_navigation tab now s (ts :: rest)).2
        = nav_decision s tab.id ts
          :: (run_navigation tab now (on_navigation s ⟨tab.id, 0, ts⟩ tab now).1 rest).2 := rfl
    rw [hrun, htail, nav_decision_spec]
    cases lookupA s.navigation_timestamp tab.id with
    | none => rfl
    | some prev => rfl

/-! Injectivity of the decimal rendering used by the cache-bypass marker. -/

/-- Decimal digit characters of a natural number: structural reference
implementation for `Nat.toDigitsCore` at base 10. -/
def decDigits (n : Nat) : List Char :=
  if _h : n < 10 then [Nat.digitChar n]
  else decDigits (n / 10) ++ [Nat.digitChar (n % 10)]
decreasing_by exact Nat.div_lt_self (by omega) (by omega)

theorem decDigits_lt (n : Nat) (h : n < 10) : decDigits n = [Nat.digitChar n] := by
  rw [decDigits]
  exact dif_pos h

theorem decDigits_ge (n : Nat) (h : ¬ n < 10) :
    decDigits n = decDigits (n / 10) ++ [Nat.digitChar (n % 10)] := by
  rw [decDigits]
  exact dif_neg h

theorem toDigitsCore_eq_decDigits :
    ∀ (fuel n : Nat) (ds : List Char), n < fuel →
      Nat.toDigitsCore 10 fuel n ds = decDigits n ++ ds := by
  intro fuel
  induction fuel with
  | zero => intro n ds h; exact absurd h (Nat.not_lt_zero n)
  | succ fuel ih =>
    intro n ds h
    simp only [Nat.toDigitsCore]
    by_cases h0 : n / 10 = 0
    · have hn : n < 10 := by omega
      rw [if_pos h0, decDigits_lt n hn, Nat.mod_eq_of_lt hn]
      rfl
    · have hn : ¬ n < 10 := by omega
      have hlt : n / 10 < fuel := by omega
      rw [if_neg h0, ih (n / 10) _ hlt, decDigits_ge n hn, List.append_assoc]
      rfl

theorem digitChar_toNat (m : Nat) (h : m < 10) : (Nat.digitChar m).toNat - 48 = m := by
  interval_cases m <;> rfl

/-- Numeric value of a decimal digit string. -/
def valD (l : List Char) : Nat :=
  l.foldl (fun acc c => 10 * acc + (c.toNat - 48)) 0

theorem valD_append_digit (xs : List Char) (c : Char) :
    valD (xs ++ [c]) = 10 * valD xs + (c.toNat - 48) := by
  unfold valD
  rw [List.foldl_append]
  rfl

theorem valD_decDigits : ∀ n : Nat, valD (decDigits n) = n := by
  intro n
  induction n using Nat.strong_induction_on with
  | _ n ih =>
    by_cases h : n < 10
    · rw [decDigits_lt n h]
      show 10 * 0 + ((Nat.digitChar n).toNat - 48) = n
      rw [digitChar_toNat n h]
      omega
    · rw [decDigits_ge n h, valD_append_digit,
        ih (n / 10) (Nat.div_lt_self (by omega) (by omega)),
        digitChar_toNat (n % 10) (Nat.mod_lt n (by omega))]
      omega

theorem nat_repr_eq_decDigits (n : Nat) : Nat.repr n = (decDigits n).asString := by
  unfold Nat.repr Nat.toDigits
  rw [toDigitsCore_eq_decDigits (n + 1) n [] (Nat.lt_succ_self n), List.append_nil]

theorem nat_repr_injective {m n : Nat} (h : Nat.repr m = Nat.repr n) : m = n := by
  rw [nat_repr_eq_decDigits, nat_repr_eq_decDigits] at h
  have hd := List.asString_inj.mp h
  have hv := congrArg valD hd
  rwa [valD_decDigits, valD_decDigits] at hv

theorem toString_nat_injective {m n : Nat} (h : toString m = toString n) : m = n :=
  nat_repr_injective h

theorem animated_icon_path_inj (status : LoadState) (is_dark : Bool) {n1 n2 : Nat}
    (h : animated_icon_path status is_dark n1 = animated_icon_path status is_dark n2) :
    n1 = n2 := by
  have hd := congrArg String.data h
  simp only [animated_icon_path, String.data_append] at hd
  have h1 := List.append_cancel_left hd
  have h2 := List.append_cancel_left h1
  exact toString_nat_injective (String.ext h2)

/-! Lemmas about the full-refresh loop over all tabs. -/

theorem update_all_dark : ∀ (tabs : List Tab) (s : AppState) (now : Nat),
    (update_all_page_action_icons s now tabs).1.is_theme_dark = s.is_theme_dark := by
  intro tabs
  induction tabs with
  | nil => intro s now; rfl
  | cons tab rest ih =>
    intro s now
    have hst : (update_all_page_action_icons s now (tab :: rest)).1
        = (update_all_page_action_icons
            (update_page_action_icon s tab true now).1 now rest).1 := rfl
    rw [hst, ih, update_icon_dark]

theorem update_all_sets_icons : ∀ (tabs : List Tab) (s : AppState) (now : Nat) (tab : Tab),
    tab ∈ tabs →
    Effect.setIcon tab.id (animated_icon_path tab.status s.is_theme_dark now)
      ∈ (update_all_page_action_icons s now tabs).2 := by
  intro tabs
  induction tabs with
  | nil => intro s now tab h; exact absurd h (List.not_mem_nil tab)
  | cons tab0 rest ih =>
    intro s now tab h
    have heff : (update_all_page_action_icons s now (tab0 :: rest)).2
        = [Effect.setIcon tab0.id (animated_icon_path tab0.status s.is_theme_dark now)]
          ++ (update_all_page_action_icons
              (update_page_action_icon s tab0 true now).1 now rest).2 := rfl
    rw [heff]
    rcases List.mem_cons.mp h with rfl | hm
    · exact List.mem_append_left _ (List.mem_singleton_self _)
    · apply List.mem_append_right
      have hih := ih (update_page_action_icon s tab0 true now).1 now tab hm
      rwa [update_icon_dark] at hih

/-! Claim theorems. -/

/-- C1: along any sequence of top-level navigation events for one tab, the
debounce decision of `on_navigation` animates the first event (no recorded
timestamp for the tab), animates an event whose distance to the previously
recorded timestamp is at least 417 ms, and declines to animate otherwise
(`spec_decisions` is exactly the decision sequence the specification
prescribes, threading the previously recorded timestamp); moreover every
top-level event records its timestamp as the tab's last-navigation
timestamp, whatever the decision was. -/
theorem navigation_debounce :
    (∀ (tab : Tab) (now : Nat) (s : AppState) (tss : List Int),
      (run_navigation tab now s tss).2
        = spec_decisions (lookupA s.navigation_timestamp tab.id) tss) ∧
    (∀ (s : AppState) (tab : Tab) (now : Nat) (ts : Int),
      lookupA (on_navigation s ⟨tab.id, 0, ts⟩ tab now).1.navigation_timestamp tab.id
        = some ts) :=
  ⟨fun tab now s tss => run_navigation_decisions tab now tss s,
   fun s tab now ts => on_navigation_records s tab.id ts tab now⟩

/-- C2: at most one live settle timer per tab id at any instant: the timer
bookkeeping invariant holds initially, is preserved by every operation of
the model (icon updates, timeout firing and all event handlers), and
implies that the pending timeouts of any tab id number at most one; in
particular two animated updates in immediate succession for the same tab
leave exactly one pending timeout for it, the second update having
cancelled and replaced the first one's timer before scheduling. -/
theorem one_timer_per_tab :
    TimerInv initial_state ∧
    (∀ (s : AppState) (tab : Tab) (b : Bool) (now : Nat), TimerInv s →
      TimerInv (update_page_action_icon s tab b now).1) ∧
    (∀ (s : AppState) (t : Timer) (now : Nat), TimerInv s → t ∈ s.live_timeouts →
      TimerInv (fire_timer s t now).1) ∧
    (∀ (s : AppState) (d : NavDetails) (tab : Tab) (now : Nat), TimerInv s →
      TimerInv (on_navigation s d tab now).1) ∧
    (∀ (s : AppState) (info : ExtensionInfo) (tabs : List Tab) (now : Nat), TimerInv s →
      TimerInv (on_enabled s info tabs now).1) ∧
    (∀ (s : AppState) (tab : Tab) (now : Nat), TimerInv s →
      TimerInv (on_created s tab now).1 ∧ TimerInv (on_updated s tab).1 ∧
        TimerInv (startup_show_tab s tab now).1) ∧
    (∀ (s : AppState) (tabId : Nat), TimerInv s →
      (s.live_timeouts.filter fun t => t.tab.id = tabId).length ≤ 1) ∧
    (∀ (s : AppState) (tab : Tab) (n1 n2 : Nat), TimerInv s →
      ((update_page_action_icon (update_page_action_icon s tab true n1).1
          tab true n2).1.live_timeouts.filter
        fun t => t.tab.id = tab.id).length = 1) := by
  refine ⟨by decide, TimerInv_update, TimerInv_fire, TimerInv_on_navigation,
    TimerInv_on_enabled, ?_, fun s tabId h => TimerInv_count s h tabId, ?_⟩
  · intro s tab now h
    exact ⟨TimerInv_update s tab true now h, h, TimerInv_update s tab true now h⟩
  · intro s tab n1 n2 h
    rw [one_timer_after_animated _ (TimerInv_update s tab true n1 h) tab n2]
    rfl

/-- Witness for C2 at a concrete input: from the initial state, two
immediate animated updates for tab 5 leave exactly one pending settle
timeout for it. -/
theorem one_timer_per_tab_witness :
    ((update_page_action_icon
        (update_page_action_icon initial_state ⟨5, LoadState.idle⟩ true 0).1
        ⟨5, LoadState.idle⟩ true 1).1.live_timeouts.filter
      fun t => t.tab.id = 5).length = 1 :=
  one_timer_per_tab.2.2.2.2.2.2.2 initial_state ⟨5, LoadState.idle⟩ 0 1 (by decide)

/-- C4: a pending settle timeout always carries the fixed 417 ms delay;
when it fires it applies the settled icon for the load-state captured when
the animation started; and any later icon update for the same tab
(animated or still-frame) cancels the pending timeout, leaving no pending
timeout with its id, so a superseded settle step never fires. -/
theorem animation_settles :
    (∀ (s : AppState) (t : Timer), TimerInv s → t ∈ s.live_timeouts → t.delay = 417) ∧
    (∀ (s : AppState) (t : Timer) (now : Nat),
      (fire_timer s t now).2
        = [Effect.setIcon t.tab.id (still_icon_path t.tab.status s.is_theme_dark)]) ∧
    (∀ (s : AppState) (tab : Tab) (b : Bool) (now : Nat) (t : Timer),
      TimerInv s → t ∈ s.live_timeouts → t.tab.id = tab.id →
      (update_page_action_icon s tab b now).1.live_timeouts.filter
        (fun u => u.id = t.id) = []) := by
  refine ⟨?_, fire_timer_effects, ?_⟩
  · intro s t h ht
    exact (h.1 t ht).2.2
  · intro s tab b now t h ht htab
    cases b
    · have hst : (update_page_action_icon s tab false now).1.live_timeouts
          = cleared_live s tab.id := rfl
      rw [hst, List.filter_eq_nil_iff]
      intro u hu hdec
      exact cleared_live_no_id s h t ht tab.id htab u hu (by simpa using hdec)
    · have hst : (update_page_action_icon s tab true now).1.live_timeouts
          = cleared_live s tab.id ++ [⟨s.next_timeout_id, tab, 417⟩] := rfl
      rw [hst, List.filter_eq_nil_iff]
      intro u hu hdec
      have huid : u.id = t.id := by simpa using hdec
      rcases List.mem_append.mp hu with hm | hm
      · exact cleared_live_no_id s h t ht tab.id htab u hm huid
      · have hun : u = ⟨s.next_timeout_id, tab, 417⟩ := by simpa using hm
        have hlt := (h.1 t ht).2.1
        rw [hun] at huid
        simp at huid
        omega

/-- Witness for C4 at a concrete input: the settle timeout scheduled for
tab 3 (loading) carries delay 417; firing it applies the settled stop
icon for the captured load-state; and a later animated update for tab 3
removes every pending timeout with its id. -/
theorem animation_settles_witness :
    (Timer.mk 0 ⟨3, LoadState.loading⟩ 417).delay = 417 ∧
    (fire_timer (update_page_action_icon initial_state ⟨3, LoadState.loading⟩ true 0).1
        ⟨0, ⟨3, LoadState.loading⟩, 417⟩ 500).2
      = [Effect.setIcon 3 (still_icon_path LoadState.loading false)] ∧
    ((update_page_action_icon
        (update_page_action_icon initial_state ⟨3, LoadState.loading⟩ true 0).1
        ⟨3, LoadState.loading⟩ true 300).1.live_timeouts.filter
      (fun u => u.id = 0)) = [] :=
  ⟨animation_settles.1 (update_page_action_icon initial_state ⟨3, LoadState.loading⟩ true 0).1
      ⟨0, ⟨3, LoadState.loading⟩, 417⟩ (by decide) (by decide),
   animation_settles.2.1 (update_page_action_icon initial_state ⟨3, LoadState.loading⟩ true 0).1
      ⟨0, ⟨3, LoadState.loading⟩, 417⟩ 500,
   animation_settles.2.2 (update_page_action_icon initial_state ⟨3, LoadState.loading⟩ true 0).1
      ⟨3, LoadState.loading⟩ true 300 ⟨0, ⟨3, LoadState.loading⟩, 417⟩
      (by decide) (by decide) rfl⟩

/-- C10: after a still-frame (skip) icon update for a tab holding a pending
settle timeout, the cancelled timeout's id stays behind as an entry of
`animation_timeouts` while no pending timeout for that tab remains; the
map entry is deleted only by the callback of a timeout that actually fires.
Membership of a tab id in the map therefore does not imply a live pending
timer for it. -/
theorem stale_timeout_entries :
    (∀ (s : AppState) (tab : Tab) (tid : Nat) (now : Nat),
      TimerInv s → lookupA s.animation_timeouts tab.id = some tid →
      lookupA (update_page_action_icon s tab false now).1.animation_timeouts tab.id
          = some tid ∧
      (update_page_action_icon s tab false now).1.live_timeouts.filter
        (fun t => t.tab.id = tab.id) = []) ∧
    (∀ (s : AppState) (t : Timer) (now : Nat),
      lookupA (fire_timer s t now).1.animation_timeouts t.tab.id = none) := by
  constructor
  · intro s tab tid now h hl
    constructor
    · exact hl
    · have hst : (update_page_action_icon s tab false now).1.live_timeouts
          = cleared_live s tab.id := rfl
      rw [hst, List.filter_eq_nil_iff]
      intro u hu hdec
      exact cleared_live_tab_ne s h tab.id u hu (by simpa using hdec)
  · intro s t now
    rw [fire_timer_state]
    exact lookupA_deleteA_self _ _

/-- Witness for C10 at a concrete input: tab 3 gets an animated update
(timeout id 0 recorded), then a skip update; the map still holds the entry
for tab 3 with the cancelled id 0, while no pending timeout for tab 3
remains. -/
theorem stale_timeout_entries_witness :
    lookupA (update_page_action_icon
        (update_page_action_icon initial_state ⟨3, LoadState.loading⟩ true 0).1
        ⟨3, LoadState.loading⟩ false 7).1.animation_timeouts 3 = some 0 ∧
    (update_page_action_icon
        (update_page_action_icon initial_state ⟨3, LoadState.loading⟩ true 0).1
        ⟨3, LoadState.loading⟩ false 7).1.live_timeouts.filter
      (fun t => t.tab.id = 3) = [] :=
  stale_timeout_entries.1
    (update_page_action_icon initial_state ⟨3, LoadState.loading⟩ true 0).1
    ⟨3, LoadState.loading⟩ 0 7 (by decide) (by decide)

/-- C3 counterexample: with the light theme at clock reading 0, the
transition-phase resolution for a loading tab yields the stop-to-reload
clip asset, not the reload-to-stop clip the claim assigns to the loading
state; the reload-to-stop clip is what the idle state gets. -/
theorem icon_direction_counterexample :
    update_icon_path LoadState.loading false true 0 = "data/stop_to_reload_light.svg?t=0" ∧
    decide (update_icon_path LoadState.loading false true 0
      = "data/reload_to_stop_light.svg?t=0") = false ∧
    update_icon_path LoadState.idle false true 0 = "data/reload_to_stop_light.svg?t=0" := by
  refine ⟨by decide, by decide, by decide⟩

/-- C3 (amended): the icon path resolution picks, in the transition phase,
the stop-to-reload clip asset when the tab is loading and the
reload-to-stop clip asset when it is idle; in the settled phase it picks
the static stop icon when loading and the static reload icon when idle;
the dark/light variant is chosen independently by the theme flag in all
four cases (`spec_resolve` composes the asset name from the three
independent axes), and the transition result additionally carries the
cache-bypass marker. -/
theorem icon_path_resolution :
    ∀ (status : LoadState) (is_dark : Bool) (now : Nat),
      update_icon_path status is_dark true now
        = spec_resolve status is_dark true ++ ("?t=" ++ toString now) ∧
      update_icon_path status is_dark false now = spec_resolve status is_dark false := by
  intro status is_dark now
  cases status <;> cases is_dark <;> exact ⟨rfl, rfl⟩

/-- C7: icon path resolution is pure on its logical inputs except for the
transition marker: settled-phase results do not depend on the clock at
all, while transition-phase results differ whenever the `Date.now()`
readings of the two invocations differ, even with identical logical
inputs. -/
theorem icon_path_purity :
    (∀ (status : LoadState) (is_dark : Bool) (n1 n2 : Nat),
      update_icon_path status is_dark false n1 = update_icon_path status is_dark false n2) ∧
    (∀ (status : LoadState) (is_dark : Bool) (n1 n2 : Nat), n1 ≠ n2 →
      update_icon_path status is_dark true n1 ≠ update_icon_path status is_dark true n2) := by
  constructor
  · intro status is_dark n1 n2
    rfl
  · intro status is_dark n1 n2 hne h
    exact hne (animated_icon_path_inj status is_dark h)

/-- Witness for C7 at a concrete input: the settled result is the same at
clock readings 0 and 99, and the transition results at clock readings 0
and 1 differ. -/
theorem icon_path_purity_witness :
    update_icon_path LoadState.idle false false 0
      = update_icon_path LoadState.idle false false 99 ∧
    decide (update_icon_path LoadState.idle false true 0
      = update_icon_path LoadState.idle false true 1) = false :=
  ⟨icon_path_purity.1 LoadState.idle false 0 99,
   decide_eq_false (icon_path_purity.2 LoadState.idle false 0 1 (by decide))⟩

/-- C5 counterexample: a tab `updated` notification performs no icon
update at all, unlike tab creation, which performs exactly one (animated)
icon update — refuting the claim that every `updated` notification
requests an animated icon update; moreover the startup enumeration uses
the very same animated path as creation, so it does force an animated
view. -/
theorem updated_no_icon_refresh :
    (on_updated initial_state ⟨4, LoadState.loading⟩).2.filter is_icon_effect = [] ∧
    ((on_created initial_state ⟨4, LoadState.loading⟩ 0).2.filter is_icon_effect).length = 1 ∧
    startup_show_tab initial_state ⟨4, LoadState.loading⟩ 0
      = on_created initial_state ⟨4, LoadState.loading⟩ 0 := by
  refine ⟨rfl, rfl, rfl⟩

/-- C5 (amended): on tab creation — and identically for each tab of the
initial startup enumeration, which runs the very same path and therefore
also forces an animated view — the controller shows the action, sets the
title to the busy title when the load state is loading and the idle title
otherwise, and requests an animated icon update; a tab `updated`
notification only shows the action and re-sets the title, performing no
icon update at all. -/
theorem tab_lifecycle_handlers :
    ∀ (s : AppState) (tab : Tab) (now : Nat),
      (on_created s tab now).2
        = update_page_action s tab
          ++ [Effect.setIcon tab.id (animated_icon_path tab.status s.is_theme_dark now)] ∧
      update_page_action s tab
        = [Effect.showAction tab.id,
           Effect.setTitle tab.id
             (match tab.status with
               | LoadState.loading => some s.page_action_title_busy
               | LoadState.idle => s.page_action_title_idle)] ∧
      (on_updated s tab).2 = update_page_action s tab ∧
      (on_updated s tab).2.filter is_icon_effect = [] ∧
      startup_show_tab s tab now = on_created s tab now := by
  intro s tab now
  exact ⟨rfl, rfl, rfl, rfl, rfl⟩

/-- C6: every theme-enable event sets the dark flag from the fixed dark
theme id list and triggers an icon refresh that re-applies the icon of
every currently open tab, not only the event's own or the active tab. -/
theorem theme_change_refreshes_all_tabs :
    ∀ (s : AppState) (info : ExtensionInfo) (tabs : List Tab) (now : Nat),
      info.type = "theme" →
      (on_enabled s info tabs now).1.is_theme_dark = dark_theme_ids.contains info.id ∧
      ∀ tab ∈ tabs,
        Effect.setIcon tab.id
            (animated_icon_path tab.status (dark_theme_ids.contains info.id) now)
          ∈ (on_enabled s info tabs now).2 := by
  intro s info tabs now htype
  have hif : on_enabled s info tabs now
      = update_all_page_action_icons
          { s with is_theme_dark := dark_theme_ids.contains info.id } now tabs := by
    unfold on_enabled
    rw [if_pos htype]
  constructor
  · rw [hif, update_all_dark]
  · intro tab htab
    rw [hif]
    exact update_all_sets_icons tabs
      { s with is_theme_dark := dark_theme_ids.contains info.id } now tab htab

/-- Witness for C6 at a concrete input: enabling the dark theme while tabs
1 and 2 are open re-applies tab 2's icon with the dark transition asset. -/
theorem theme_change_refreshes_all_tabs_witness :
    Effect.setIcon 2 (animated_icon_path LoadState.loading true 9)
      ∈ (on_enabled initial_state
          ⟨"theme", true, "firefox-compact-dark@mozilla.org@personas.mozilla.org"⟩
          [⟨1, LoadState.idle⟩, ⟨2, LoadState.loading⟩] 9).2 :=
  (theme_change_refreshes_all_tabs initial_state
      ⟨"theme", true, "firefox-compact-dark@mozilla.org@personas.mozilla.org"⟩
      [⟨1, LoadState.idle⟩, ⟨2, LoadState.loading⟩] 9 rfl).2
    ⟨2, LoadState.loading⟩ (by decide)

/-- C8: the initial theme-detection continuation is not error-free: on an
extension list containing no enabled theme it reads `.id` of `undefined`
and throws a `TypeError` (modelled by `none`), so the handler dies before
writing the flag or refreshing any icon — the dark flag keeps its default
`false` only because the handler never reaches the assignment, not because
the code handles the case. -/
theorem getAll_no_theme_throws :
    ∀ (s : AppState) (tabs : List Tab) (now : Nat),
      management_getAll_handler s tabs now [] = none ∧
      management_getAll_handler s tabs now
        [⟨"theme", false, "disabled-theme"⟩, ⟨"extension", true, "not-a-theme"⟩] = none := by
  intro s tabs now
  exact ⟨rfl, rfl⟩

/-- C9 counterexample: before the asynchronous OS detection resolves, the
idle title is still undefined, yet a title update for an idle tab is
applied with that undefined title (the `setTitle` effect carries `none`)
instead of being skipped or deferred. -/
theorem undefined_idle_title_applied :
    Effect.setTitle 1 none ∈ update_page_action initial_state ⟨1, LoadState.idle⟩ := by
  decide

/-- C9 (amended): `update_page_action` does not guard the idle title:
whenever the idle title is still unresolved and the tab is idle, the title
update is applied anyway, passing the undefined title through to both
title-setting calls. -/
theorem title_update_unguarded :
    ∀ (s : AppState) (tab : Tab), tab.status = LoadState.idle →
      s.page_action_title_idle = none →
      Effect.setTitle tab.id none ∈ update_page_action s tab := by
  intro s tab h1 h2
  unfold update_page_action
  rw [h1, h2]
  simp

/-- Witness for C9 at a concrete input: tab 2, idle, in the initial state
(idle title unresolved) receives a `setTitle` with the undefined title. -/
theorem title_update_unguarded_witness :
    Effect.setTitle 2 none ∈ update_page_action initial_state ⟨2, LoadState.idle⟩ :=
  title_update_unguarded initial_state ⟨2, LoadState.idle⟩ rfl rfl

end Reloader
